import Mathlib

/-!
Shallow embedding of the multi-operator ferry search aggregation core of the
maritime reservation backend (`app/services/ferry_integration.py`, with the
operator configuration fields from `app/models/ferry.py`), together with
theorems settling the specification claims about it.

Modelling conventions:
* machine-level JSON numbers and Python `Decimal` values are exact rationals;
* fields a response may omit (Python `dict.get` returning `None`) are `Option`s;
* a Python call that can raise is modelled by an explicit outcome type
  (`HttpAttempt`, `SearchRun`, `HealthRun`, `BookingRun`), and code that
  catches exceptions is a total function on those outcomes;
* Python's stable `list.sort` is embedded as a stable insertion sort, which
  returns the same list as any other stable sort for the same key order.
-/

/-- Lexicographic comparison of character lists by Unicode code point, the
order Python uses to compare strings. Defined recursively so that it
evaluates by kernel reduction. -/
def charListLEb : List Char → List Char → Bool
  | [], _ => true
  | _ :: _, [] => false
  | c :: cs, d :: ds =>
    if c.toNat < d.toNat then true
    else if d.toNat < c.toNat then false
    else charListLEb cs ds

/-- Python string comparison `s <= t`: code-point lexicographic order. -/
def strLEb (s t : String) : Bool := charListLEb s.data t.data

/-- Model of a decoded JSON value as it can appear in a response field whose
type the Python code does not control. Numbers are exact rationals. -/
inductive JVal where
  | null
  | bool (b : Bool)
  | num (q : ℚ)
  | str (s : String)
deriving DecidableEq

/-- Numeric value of a list of decimal digit characters, most significant
first. -/
def digitsVal (cs : List Char) : Nat :=
  cs.foldl (fun n c => 10 * n + (c.toNat - 48)) 0

/-- Model of Python `Decimal(s)` on a string `s`: an optional sign, then a
decimal numeral `d+`, `d+.d*` or `.d+`. Exotic accepted forms (exponents,
`NaN`, `Infinity`, surrounding whitespace, underscores) are not modelled; no
claim exercises them. Returns `none` when the conversion raises. -/
def pyDecimalOfString (s : String) : Option ℚ :=
  let cs := s.data
  let neg : Bool := match cs with
    | c :: _ => c = '-'
    | [] => false
  let cs2 := match cs with
    | '-' :: r => r
    | '+' :: r => r
    | r => r
  let ip := cs2.takeWhile (fun c => c.isDigit)
  let rest := cs2.dropWhile (fun c => c.isDigit)
  let v? : Option ℚ :=
    match rest with
    | [] => if ip.isEmpty then none else some ((digitsVal ip : ℚ))
    | '.' :: fp =>
      if fp.all (fun c => c.isDigit) && !(ip.isEmpty && fp.isEmpty) then
        some ((digitsVal ip : ℚ) + (digitsVal fp : ℚ) / ((10 : ℚ) ^ fp.length))
      else none
    | _ => none
  v?.map (fun v => if neg then -v else v)

/-- Model of Python `Decimal(str(v))` for a decoded JSON value `v`: a number
round-trips through `str` to itself; `str(None)`, `str(True)` and
`str(False)` are not decimal numerals, so the conversion raises. -/
def pyDecimalOfJVal : JVal → Option ℚ
  | .null => none
  | .bool _ => none
  | .num q => some q
  | .str s => pyDecimalOfString s

/-- Fields of the `FerryOperator` ORM model (`app/models/ferry.py`) that the
integration service reads. The `api_timeout_seconds` column is non-nullable
with database default 30. -/
structure FerryOperator where
  code : String
  api_endpoint : Option String := none
  api_key_encrypted : Option String := none
  api_timeout_seconds : Nat := 30
  is_active : Bool := true
  integration_status : String := "pending"
deriving DecidableEq

/-- The `SearchRequest` dataclass (`ferry_integration.py` lines 36-46).
Dates are modelled as their ISO strings. -/
structure SearchRequest where
  departure_port : String
  arrival_port : String
  departure_date : String
  return_date : Option String := none
  passengers : Nat := 1
  vehicles : Nat := 0
  passenger_types : List (String × Nat) := []
  vehicle_types : List (String × Nat) := []
deriving DecidableEq

/-- The `SearchResponse` dataclass (lines 49-63). The dataclass performs no
validation, so every field an adapter may fill with Python `None` is an
`Option`; `base_price` is always a `Decimal` because the one conversion the
adapters perform is `Decimal(str(...))`, whose failure skips the entry. -/
structure SearchResponse where
  operator_code : String
  route_id : Option String := none
  departure_time : Option String := none
  arrival_time : Option String := none
  duration_minutes : Option Int := none
  available_seats : Option Int := none
  available_vehicles : Option Int := none
  base_price : ℚ := 0
  currency : String := "EUR"
  booking_reference : Option String := none
  amenities : List String := []
  vessel_name : Option String := none
deriving DecidableEq

/-- One entry of the `results` array of a Lyko search response. Fields the
entry omits are `none` (Python `item.get` then yields its default). The
`price` field is an arbitrary JSON value because `Decimal(str(price))` is the
one per-entry conversion that can raise; the remaining fields are modelled as
present-and-well-typed or absent. -/
structure LykoItem where
  operator_code : Option String := none
  route_id : Option String := none
  departure_time : Option String := none
  arrival_time : Option String := none
  duration_minutes : Option Int := none
  available_seats : Option Int := none
  available_vehicles : Option Int := none
  price : Option JVal := none
  currency : Option String := none
  booking_reference : Option String := none
  amenities : Option (List String) := none
  vessel_name : Option String := none
deriving DecidableEq

/-- A decoded Lyko search response body; `results` is `none` when the key is
absent (`data.get("results", [])` then yields `[]`). -/
structure LykoData where
  results : Option (List LykoItem) := none
deriving DecidableEq

/-- One entry of the `sailings` array of a CTN search response; conventions
as for `LykoItem`, with `fare` the one field whose conversion can raise. -/
structure CtnSailing where
  route_id : Option String := none
  departure : Option String := none
  arrival : Option String := none
  duration : Option Int := none
  seats_available : Option Int := none
  vehicles_available : Option Int := none
  fare : Option JVal := none
  currency : Option String := none
  services : Option (List String) := none
  vessel : Option String := none
deriving DecidableEq

/-- A decoded CTN search response body. -/
structure CtnData where
  sailings : Option (List CtnSailing) := none
deriving DecidableEq

/-- Outcome of one HTTP request as seen inside an adapter `search_routes`
try-block: either an exception before any status was obtained (connection
error, timeout), or a response with a status code and a body whose JSON
decoding (`await response.json()`) succeeds (`some`) or raises (`none`). -/
inductive HttpAttempt (α : Type) where
  | exn
  | resp (status : Nat) (body : Option α)
deriving DecidableEq

namespace LykoAggregatorAdapter

/-- Loop body of `LykoAggregatorAdapter._parse_search_response`
(lines 144-163): build the normalized record from one `results` entry. Every
`item.get` is total; the only conversion that can raise is
`Decimal(str(item.get("price", 0)))`, and the `except ... continue` skips the
entry exactly when it does. -/
def parseItem (opCode : String) (item : LykoItem) : Option SearchResponse :=
  (pyDecimalOfJVal (item.price.getD (JVal.num 0))).map (fun p =>
    { operator_code := item.operator_code.getD opCode
      route_id := item.route_id
      departure_time := item.departure_time
      arrival_time := item.arrival_time
      duration_minutes := some (item.duration_minutes.getD 0)
      available_seats := some (item.available_seats.getD 0)
      available_vehicles := some (item.available_vehicles.getD 0)
      base_price := p
      currency := item.currency.getD "EUR"
      booking_reference := item.booking_reference
      amenities := item.amenities.getD []
      vessel_name := some (item.vessel_name.getD "") })

/-- `LykoAggregatorAdapter._parse_search_response` (lines 140-165): the
for-loop with `try ... except: continue` over `data.get("results", [])`. -/
def parse_search_response (opCode : String) (data : LykoData) :
    List SearchResponse :=
  (data.results.getD []).filterMap (parseItem opCode)

/-- `LykoAggregatorAdapter.search_routes` (lines 103-138): on a 200 response
the body is decoded and parsed; a decoding failure is caught by the outer
`except` and yields `[]`, as do a non-200 status and a transport error. -/
def search_routes (opCode : String) (h : HttpAttempt LykoData) :
    List SearchResponse :=
  match h with
  | .exn => []
  | .resp status body =>
    if status = 200 then
      match body with
      | some data => parse_search_response opCode data
      | none => []
    else []

/-- Timeout handed to the HTTP client by `search_routes` (line 127):
`aiohttp.ClientTimeout(total=30)` — a literal constant; the operator record
held by the adapter is not consulted. -/
def searchTimeoutSeconds (op : FerryOperator) : Nat := 30

end LykoAggregatorAdapter

namespace CTNDirectAdapter

/-- Loop body of `CTNDirectAdapter._parse_ctn_response` (lines 256-270).
Unlike the Lyko mapper, `duration`, `seats_available`, `vehicles_available`,
`departure`, `arrival` and `vessel` are read with `sailing.get(...)` without a
default, so an omitted field stays Python `None`; only `fare` (default 0) and
`currency` (default `"TND"`) have defaults. -/
def parseSailing (sailing : CtnSailing) : Option SearchResponse :=
  (pyDecimalOfJVal (sailing.fare.getD (JVal.num 0))).map (fun p =>
    { operator_code := "CTN"
      route_id := sailing.route_id
      departure_time := sailing.departure
      arrival_time := sailing.arrival
      duration_minutes := sailing.duration
      available_seats := sailing.seats_available
      available_vehicles := sailing.vehicles_available
      base_price := p
      currency := sailing.currency.getD "TND"
      booking_reference := none
      amenities := sailing.services.getD []
      vessel_name := sailing.vessel })

/-- `CTNDirectAdapter._parse_ctn_response` (lines 250-275). -/
def parse_ctn_response (data : CtnData) : List SearchResponse :=
  (data.sailings.getD []).filterMap parseSailing

/-- `CTNDirectAdapter.search_routes` (lines 217-248), same shape as the Lyko
variant. -/
def search_routes (h : HttpAttempt CtnData) : List SearchResponse :=
  match h with
  | .exn => []
  | .resp status body =>
    if status = 200 then
      match body with
      | some data => parse_ctn_response data
      | none => []
    else []

/-- Timeout handed to the HTTP client by `search_routes` (line 237): the
literal `aiohttp.ClientTimeout(total=30)`. -/
def searchTimeoutSeconds (op : FerryOperator) : Nat := 30

end CTNDirectAdapter

/-- Failure cases of one adapter HTTP search named by the spec: transport
error, non-200 status, or a whole response body that fails to parse. -/
def httpFailed {α : Type} : HttpAttempt α → Prop
  | .exn => True
  | .resp status body => status ≠ 200 ∨ body = none

/-- Outcome of awaiting one adapter `search_routes` call inside
`_safe_search`: a returned list, or a raised exception (or cancellation by
timeout, which surfaces as an exception at the await). -/
inductive SearchRun where
  | ok (rs : List SearchResponse)
  | exn
deriving DecidableEq

/-- Outcome of awaiting one adapter `health_check` call. -/
inductive HealthRun where
  | ok (b : Bool)
  | exn
deriving DecidableEq

/-- Outcome of awaiting one adapter `create_booking` call: a returned dict
(modelled as a string association list) or an exception with message. -/
inductive BookingRun where
  | ok (d : List (String × String))
  | exnMsg (msg : String)
deriving DecidableEq

/-- Behaviour of one registered adapter's backend during one service call
cycle: what each awaited adapter method does when called. -/
structure AdapterBehavior where
  searchRun : SearchRequest → SearchRun
  healthRun : HealthRun := HealthRun.ok true
  bookingRun : List (String × String) → BookingRun := fun _ => BookingRun.ok []

/-- Python dict insertion on an insertion-ordered association list:
overwriting an existing key keeps its position, a new key is appended. -/
def dictInsert {α : Type} : List (String × α) → String → α → List (String × α)
  | [], k, v => [(k, v)]
  | (k', v') :: rest, k, v =>
    if k' = k then (k, v) :: rest else (k', v') :: dictInsert rest k v

/-- Python `dict.get` on an insertion-ordered association list. -/
def dictGet {α : Type} : List (String × α) → String → Option α
  | [], _ => none
  | (k', v) :: rest, k => if k' = k then some v else dictGet rest k

/-- Python truthiness of an optional string: `None` and the empty string
are falsy, every other string is truthy. -/
def pyTruthy : Option String → Bool
  | none => false
  | some s => !s.isEmpty

/-- Which concrete adapter class an operator gets, the range of
`_create_adapter`. -/
inductive AdapterKind where
  | lyko
  | ctn
deriving DecidableEq

namespace FerryOperatorIntegrationService

/-- `FerryOperatorIntegrationService._create_adapter` (lines 320-328):
`integration_status == "lyko"` selects the Lyko adapter, otherwise
`code == "CTN" and operator.api_endpoint` selects the direct CTN adapter —
the second conjunct is Python truthiness of the endpoint string, so a `None`
or empty endpoint falls through — and everything else defaults to the Lyko
adapter. Total: the adapter constructors only store fields and never
raise. -/
def create_adapter (op : FerryOperator) : AdapterKind :=
  if op.integration_status = "lyko" then AdapterKind.lyko
  else if op.code = "CTN" ∧ pyTruthy op.api_endpoint then AdapterKind.ctn
  else AdapterKind.lyko

/-- Loop body of the service `initialize` method (lines 309-318): inactive
operators are skipped by `continue` before anything is constructed; an active
operator's adapter is built and stored under its code. The `except` branch
that would log and exclude a construction failure is unreachable because
`_create_adapter` is total. -/
def initStep (m : List (String × AdapterKind)) (op : FerryOperator) :
    List (String × AdapterKind) :=
  if op.is_active then dictInsert m op.code (create_adapter op) else m

/-- The registry-building loop of the service `initialize` method
(lines 302-318), starting from the empty adapter dict of `__init__`. -/
def initService (ops : List FerryOperator) : List (String × AdapterKind) :=
  ops.foldl initStep []

/-- Sort key of line 356: `(x.base_price, x.departure_time)`. -/
def sortKey (x : SearchResponse) : ℚ × Option String :=
  (x.base_price, x.departure_time)

/-- Boolean comparison of optional departure-time strings, as Python tuple
comparison sees them when the prices tie. Two present strings compare by
string order; two `None`s compare equal (so `true` both ways). Mixing `None`
with a string raises `TypeError` in Python; this total model arbitrarily
orders `None` first. Every theorem below that asserts a normally returned
sorted value is therefore stated only on inputs whose departure times are
all present, where the model and Python agree (sorting the empty list, as in
the no-adapter and all-failed scenarios, cannot compare anything and so
cannot raise). The one unguarded use is the health-invariance theorem, which
asserts only that two runs of the program behave identically — also true of
the source in the raising corner, where both runs raise alike. -/
def timeLEb : Option String → Option String → Bool
  | none, _ => true
  | some _, none => false
  | some s, some t => strLEb s t

/-- Boolean reflection of the non-strict order on the line-356 sort keys. -/
def keyLEb (x y : SearchResponse) : Bool :=
  if x.base_price < y.base_price then true
  else if y.base_price < x.base_price then false
  else timeLEb x.departure_time y.departure_time

/-- `all_results.sort(key=lambda x: (x.base_price, x.departure_time))`
(line 356). Python list sort is stable, and all stable sorts for the same
total key preorder return the same list, so it is embedded as the stable
`List.insertionSort`. -/
def pySortResults (l : List SearchResponse) : List SearchResponse :=
  l.insertionSort (fun x y => keyLEb x y = true)

/-- `FerryOperatorIntegrationService._safe_search` (lines 360-366): await the
adapter search, catching any exception and turning it into `[]`. -/
def safe_search (request : SearchRequest) (b : AdapterBehavior) :
    List SearchResponse :=
  match b.searchRun request with
  | .ok rs => rs
  | .exn => []

/-- The `all_results` list of lines 348-351 of `search_all_operators`: the
per-adapter lists returned by `asyncio.gather` in task (= dict registration)
order, concatenated. Every gathered value is a list because `_safe_search`
catches all exceptions, so the `isinstance(result, Exception)` branch never
fires. -/
def gathered_results (request : SearchRequest)
    (adapters : List (String × AdapterBehavior)) : List SearchResponse :=
  (adapters.map (fun p => safe_search request p.2)).flatten

/-- `FerryOperatorIntegrationService.search_all_operators` (lines 330-358):
one task per registered adapter in dict order, early return `[]` when there
are no tasks (`if not tasks`), concatenation of the gathered lists and the
stable sort of line 356. -/
def search_all_operators (request : SearchRequest)
    (adapters : List (String × AdapterBehavior)) : List SearchResponse :=
  if adapters.isEmpty then []
  else pySortResults (gathered_results request adapters)

/-- `FerryOperatorIntegrationService.health_check_all` (lines 380-399): one
health-check task per adapter; an exception at the await is caught and
recorded as `false`. -/
def health_check_all (adapters : List (String × AdapterBehavior)) :
    List (String × Bool) :=
  adapters.map (fun p =>
    (p.1, match p.2.healthRun with
          | .ok b => b
          | .exn => false))

/-- The mutable service state read by `create_booking`: the adapter dict. -/
structure ServiceState where
  adapters : List (String × AdapterBehavior)

/-- `FerryOperatorIntegrationService.create_booking` (lines 368-378): a
missing operator code yields the literal error dict (adapter objects are
always truthy, so `if not adapter` is exactly the `None` check); an adapter
call that raises is caught and yields an error dict with the exception
message. Embedded in state-passing style; the method never mutates
`self.adapters`, so the state is returned unchanged. -/
def create_booking (s : ServiceState) (operator_code : String)
    (booking_data : List (String × String)) :
    ServiceState × List (String × String) :=
  match dictGet s.adapters operator_code with
  | none => (s, [("error", "Operator " ++ operator_code ++ " not available")])
  | some a =>
    match a.bookingRun booking_data with
    | .ok d => (s, d)
    | .exnMsg msg => (s, [("error", msg)])

end FerryOperatorIntegrationService

/-- A concrete search request used by the concrete instances below. -/
def reqW : SearchRequest :=
  { departure_port := "TUN", arrival_port := "MRS",
    departure_date := "2026-07-01" }

/-- A well-formed Lyko result entry with a numeric price. -/
def lykoItemA : LykoItem :=
  { route_id := some "r1", departure_time := some "08:00",
    price := some (JVal.num 60) }

/-- A well-formed Lyko result entry whose price is a numeric string. -/
def lykoItemB : LykoItem :=
  { route_id := some "r2", departure_time := some "09:00",
    price := some (JVal.str "75") }

/-- A Lyko result entry with no price key: the default 0 is used and the
entry is kept. -/
def lykoItemC : LykoItem :=
  { route_id := some "r3", departure_time := some "10:00" }

/-- A malformed Lyko result entry: its price does not convert to a
`Decimal`. -/
def lykoItemBad : LykoItem :=
  { route_id := some "r4", price := some (JVal.str "abc") }

/-- A well-formed CTN sailing entry. -/
def ctnSailingA : CtnSailing :=
  { route_id := some "s1", departure := some "07:00",
    fare := some (JVal.num 45) }

/-- A malformed CTN sailing entry: `Decimal(str(None))` raises. -/
def ctnSailingBad : CtnSailing :=
  { route_id := some "s2", fare := some JVal.null }

/-- A CTN sailing that only carries a fare; every other key is omitted. -/
def ctnSailingC9 : CtnSailing := { fare := some (JVal.num 12) }

/-- The normalized record `_parse_ctn_response` produces for
`ctnSailingC9`. -/
def resC9 : SearchResponse :=
  { operator_code := "CTN", base_price := 12, currency := "TND" }

/-- An operator configured with a 5-second API timeout. -/
def opC7 : FerryOperator := { code := "GNV", api_timeout_seconds := 5 }

/-- An active operator routed through the Lyko aggregator. -/
def opLyko : FerryOperator := { code := "GNV", integration_status := "lyko" }

/-- An inactive operator configuration. -/
def opInactive : FerryOperator := { code := "OLD", is_active := false }

/-- An active CTN operator with a configured direct endpoint. -/
def opCtn : FerryOperator :=
  { code := "CTN", api_endpoint := some "https://api.ctn.example/v1" }

/-- An adapter whose search raises an exception. -/
def behaviorExn : AdapterBehavior := { searchRun := fun _ => SearchRun.exn }

/-- An adapter returning one result priced 50. -/
def resB : SearchResponse :=
  { operator_code := "OPB", departure_time := some "08:00", base_price := 50 }

/-- An adapter whose search returns `[resB]`. -/
def behaviorOkB : AdapterBehavior :=
  { searchRun := fun _ => SearchRun.ok [resB] }

/-- A result of operator `ZZ`, price 80, departing 08:00. -/
def resZZ : SearchResponse :=
  { operator_code := "ZZ", route_id := some "z1",
    departure_time := some "08:00", base_price := 80 }

/-- A result of operator `AA` tied with `resZZ` on price and departure. -/
def resAA : SearchResponse :=
  { operator_code := "AA", route_id := some "a1",
    departure_time := some "08:00", base_price := 80 }

/-- An adapter whose search returns `[resZZ]`. -/
def behaviorZZ : AdapterBehavior :=
  { searchRun := fun _ => SearchRun.ok [resZZ] }

/-- An adapter whose search returns `[resAA]`. -/
def behaviorAA : AdapterBehavior :=
  { searchRun := fun _ => SearchRun.ok [resAA] }

/-- A healthy-looking CTN result used by the health-skip instances. -/
def resCtn6 : SearchResponse :=
  { operator_code := "CTN", departure_time := some "07:30",
    base_price := 45, currency := "TND" }

/-- An adapter that reports unhealthy but whose search succeeds. -/
def behaviorUnhealthy : AdapterBehavior :=
  { searchRun := fun _ => SearchRun.ok [resCtn6],
    healthRun := HealthRun.ok false }

/-- An adapter whose booking call raises with message "connection reset". -/
def behaviorBookFail : AdapterBehavior :=
  { searchRun := fun _ => SearchRun.ok [],
    bookingRun := fun _ => BookingRun.exnMsg "connection reset" }

/-- A service state holding the single adapter `behaviorBookFail` under
code "CTN". -/
def stateC10 : FerryOperatorIntegrationService.ServiceState :=
  ⟨[("CTN", behaviorBookFail)]⟩

open FerryOperatorIntegrationService

theorem charListLEb_refl : ∀ a : List Char, charListLEb a a = true
  | [] => rfl
  | _ :: cs => by simp [charListLEb, charListLEb_refl cs]

theorem charListLEb_total :
    ∀ a b : List Char, charListLEb a b = true ∨ charListLEb b a = true
  | [], _ => Or.inl rfl
  | _ :: _, [] => Or.inr rfl
  | c :: cs, d :: ds => by
    rcases Nat.lt_trichotomy c.toNat d.toNat with h | h | h
    · exact Or.inl (by simp [charListLEb, h])
    · rcases charListLEb_total cs ds with ih | ih
      · exact Or.inl (by simp [charListLEb, h, Nat.lt_irrefl, ih])
      · exact Or.inr (by simp [charListLEb, h, Nat.lt_irrefl, ih])
    · exact Or.inr (by simp [charListLEb, h])

theorem charListLEb_trans :
    ∀ a b c : List Char, charListLEb a b = true → charListLEb b c = true →
      charListLEb a c = true
  | [], _, _, _, _ => rfl
  | _ :: _, [], _, hab, _ => by simp [charListLEb] at hab
  | _ :: _, _ :: _, [], _, hbc => by simp [charListLEb] at hbc
  | x :: xs, y :: ys, z :: zs, hab, hbc => by
    simp only [charListLEb] at hab hbc ⊢
    rcases Nat.lt_trichotomy x.toNat y.toNat with h1 | h1 | h1
    · rcases Nat.lt_trichotomy y.toNat z.toNat with h2 | h2 | h2
      · simp [Nat.lt_trans h1 h2]
      · have h3 : x.toNat < z.toNat := by omega
        simp [h3]
      · have h4 : ¬ y.toNat < z.toNat := by omega
        simp [h2, h4] at hbc
    · rcases Nat.lt_trichotomy y.toNat z.toNat with h2 | h2 | h2
      · have h3 : x.toNat < z.toNat := by omega
        simp [h3]
      · have h3 : x.toNat = z.toNat := by omega
        have h5 : ¬ x.toNat < y.toNat := by omega
        have h6 : ¬ y.toNat < x.toNat := by omega
        have h7 : ¬ y.toNat < z.toNat := by omega
        have h8 : ¬ z.toNat < y.toNat := by omega
        have h9 : ¬ x.toNat < z.toNat := by omega
        have h10 : ¬ z.toNat < x.toNat := by omega
        simp [h5, h6] at hab
        simp [h7, h8] at hbc
        simp [h9, h10]
        exact charListLEb_trans xs ys zs hab hbc
      · have h4 : ¬ y.toNat < z.toNat := by omega
        simp [h2, h4] at hbc
    · have h4 : ¬ x.toNat < y.toNat := by omega
      simp [h1, h4] at hab

theorem strLEb_refl (s : String) : strLEb s s = true := charListLEb_refl _

theorem strLEb_total (s t : String) : strLEb s t = true ∨ strLEb t s = true :=
  charListLEb_total _ _

theorem strLEb_trans {s t u : String} (h1 : strLEb s t = true)
    (h2 : strLEb t u = true) : strLEb s u = true :=
  charListLEb_trans _ _ _ h1 h2

theorem timeLEb_refl : ∀ a : Option String, timeLEb a a = true
  | none => rfl
  | some s => strLEb_refl s

theorem timeLEb_total :
    ∀ a b : Option String, timeLEb a b = true ∨ timeLEb b a = true
  | none, _ => Or.inl rfl
  | some _, none => Or.inr rfl
  | some s, some t => strLEb_total s t

theorem timeLEb_trans :
    ∀ a b c : Option String, timeLEb a b = true → timeLEb b c = true →
      timeLEb a c = true
  | none, _, _, _, _ => rfl
  | some _, none, _, hab, _ => by simp [timeLEb] at hab
  | some _, some _, none, _, hbc => by simp [timeLEb] at hbc
  | some _, some _, some _, hab, hbc => strLEb_trans hab hbc

theorem keyLEb_total (x y : SearchResponse) :
    keyLEb x y = true ∨ keyLEb y x = true := by
  unfold keyLEb
  rcases lt_trichotomy x.base_price y.base_price with h | h | h
  · exact Or.inl (by simp [h])
  · rcases timeLEb_total x.departure_time y.departure_time with ht | ht
    · exact Or.inl (by simp [h, lt_self_iff_false, ht])
    · exact Or.inr (by simp [h, lt_self_iff_false, ht])
  · exact Or.inr (by simp [h])

theorem keyLEb_trans (x y z : SearchResponse) (hxy : keyLEb x y = true)
    (hyz : keyLEb y z = true) : keyLEb x z = true := by
  unfold keyLEb at hxy hyz ⊢
  rcases lt_trichotomy x.base_price y.base_price with h1 | h1 | h1
  · rcases lt_trichotomy y.base_price z.base_price with h2 | h2 | h2
    · simp [lt_trans h1 h2]
    · simp [lt_of_lt_of_le h1 (le_of_eq h2)]
    · simp [asymm h2, h2] at hyz
  · rcases lt_trichotomy y.base_price z.base_price with h2 | h2 | h2
    · simp [lt_of_le_of_lt (le_of_eq h1) h2]
    · have he : x.base_price = z.base_price := h1.trans h2
      simp [h1, lt_self_iff_false] at hxy
      simp [h2, lt_self_iff_false] at hyz
      simp [he, lt_self_iff_false]
      exact timeLEb_trans _ _ _ hxy hyz
    · simp [asymm h2, h2] at hyz
  · simp [asymm h1, h1] at hxy

theorem keyLEb_of_sortKey_eq {x y : SearchResponse}
    (h : sortKey x = sortKey y) : keyLEb x y = true := by
  have hp : x.base_price = y.base_price := congrArg Prod.fst h
  have ht : x.departure_time = y.departure_time := congrArg Prod.snd h
  unfold keyLEb
  simp [hp, lt_self_iff_false, ht, timeLEb_refl]

theorem pySortResults_sorted (l : List SearchResponse) :
    (pySortResults l).Pairwise (fun x y => keyLEb x y = true) := by
  haveI : IsTotal SearchResponse (fun x y => keyLEb x y = true) := ⟨keyLEb_total⟩
  haveI : IsTrans SearchResponse (fun x y => keyLEb x y = true) := ⟨keyLEb_trans⟩
  exact List.sorted_insertionSort _ l

theorem pySortResults_perm (l : List SearchResponse) :
    (pySortResults l).Perm l :=
  List.perm_insertionSort _ l

theorem orderedInsert_filter_key (a : SearchResponse) (k : ℚ × Option String) :
    ∀ l : List SearchResponse,
      (List.orderedInsert (fun x y => keyLEb x y = true) a l).filter
          (fun x => decide (sortKey x = k)) =
        if sortKey a = k then
          a :: l.filter (fun x => decide (sortKey x = k))
        else l.filter (fun x => decide (sortKey x = k))
  | [] => by by_cases h : sortKey a = k <;> simp [List.orderedInsert, h]
  | b :: l => by
    by_cases hr : keyLEb a b = true
    · rw [List.orderedInsert_of_le (fun x y => keyLEb x y = true) l hr]
      by_cases ha : sortKey a = k <;> simp [ha, List.filter_cons]
    · have hins : List.orderedInsert (fun x y => keyLEb x y = true) a (b :: l) =
          b :: List.orderedInsert (fun x y => keyLEb x y = true) a l := by
        simp [List.orderedInsert, hr]
      have hne : sortKey a ≠ sortKey b := fun he => hr (keyLEb_of_sortKey_eq he)
      rw [hins]
      by_cases ha : sortKey a = k
      · have hb : ¬ sortKey b = k := fun hbk => hne (ha.trans hbk.symm)
        simp [List.filter_cons, hb, ha, orderedInsert_filter_key a k l]
      · simp [List.filter_cons, ha, orderedInsert_filter_key a k l]

theorem pySortResults_filter_key (k : ℚ × Option String) :
    ∀ l : List SearchResponse,
      (pySortResults l).filter (fun x => decide (sortKey x = k)) =
        l.filter (fun x => decide (sortKey x = k))
  | [] => rfl
  | a :: l => by
    have hrec := pySortResults_filter_key k l
    unfold pySortResults at hrec ⊢
    rw [List.insertionSort, orderedInsert_filter_key a k]
    by_cases ha : sortKey a = k <;> simp [ha, List.filter_cons, hrec]

/-- Claim C3: for every adapter search call in which the transport fails,
the operator returns a non-200 status, or the whole response fails to parse,
`search_routes` returns the empty list (both adapters); in particular no
content of a response that is dropped for such a whole-response failure is
merged. Exceptions never propagate: the embedded functions are total. -/
theorem claimC3 (opCode : String) (hL : HttpAttempt LykoData)
    (hC : HttpAttempt CtnData) (hfL : httpFailed hL) (hfC : httpFailed hC) :
    LykoAggregatorAdapter.search_routes opCode hL = []
    ∧ CTNDirectAdapter.search_routes hC = [] := by
  constructor
  · cases hL with
    | exn => rfl
    | resp s b =>
      have hf : s ≠ 200 ∨ b = none := hfL
      by_cases hs : s = 200
      · have hb : b = none := hf.resolve_left (fun h => h hs)
        subst hb
        simp [LykoAggregatorAdapter.search_routes]
      · simp [LykoAggregatorAdapter.search_routes, hs]
  · cases hC with
    | exn => rfl
    | resp s b =>
      have hf : s ≠ 200 ∨ b = none := hfC
      by_cases hs : s = 200
      · have hb : b = none := hf.resolve_left (fun h => h hs)
        subst hb
        simp [CTNDirectAdapter.search_routes]
      · simp [CTNDirectAdapter.search_routes, hs]

/-- Claim C3 witness: a 500 response carrying a perfectly parseable body is
still dropped whole by the Lyko adapter, and a 200 CTN response whose body
fails to decode yields the empty list. -/
theorem claimC3_witness :
    httpFailed (HttpAttempt.resp 500 (some (⟨some [lykoItemA]⟩ : LykoData)))
    ∧ httpFailed (HttpAttempt.resp 200 (none : Option CtnData))
    ∧ LykoAggregatorAdapter.search_routes "LYK"
        (HttpAttempt.resp 500 (some ⟨some [lykoItemA]⟩)) = []
    ∧ CTNDirectAdapter.search_routes (HttpAttempt.resp 200 none) = [] := by
  have h := claimC3 "LYK" (HttpAttempt.resp 500 (some ⟨some [lykoItemA]⟩))
    (HttpAttempt.resp 200 none) (Or.inl (by decide)) (Or.inr rfl)
  exact ⟨Or.inl (by decide), Or.inr rfl, h.1, h.2⟩

/-- Claim C4: the response mappers skip exactly the individual entries whose
price conversion fails: the number of normalized results equals the number of
entries with a convertible price, and removing one malformed entry from the
input list leaves the mapper output unchanged — the remaining valid entries
of the same response are all returned. -/
theorem claimC4 :
    (∀ (opCode : String) (data : LykoData),
        (LykoAggregatorAdapter.parse_search_response opCode data).length =
          (data.results.getD []).countP
            (fun item => (pyDecimalOfJVal (item.price.getD (JVal.num 0))).isSome))
    ∧ (∀ (opCode : String) (pre post : List LykoItem) (item : LykoItem),
        pyDecimalOfJVal (item.price.getD (JVal.num 0)) = none →
          LykoAggregatorAdapter.parse_search_response opCode
              ⟨some (pre ++ item :: post)⟩ =
            LykoAggregatorAdapter.parse_search_response opCode
              ⟨some (pre ++ post)⟩)
    ∧ (∀ data : CtnData,
        (CTNDirectAdapter.parse_ctn_response data).length =
          (data.sailings.getD []).countP
            (fun s => (pyDecimalOfJVal (s.fare.getD (JVal.num 0))).isSome))
    ∧ (∀ (pre post : List CtnSailing) (s : CtnSailing),
        pyDecimalOfJVal (s.fare.getD (JVal.num 0)) = none →
          CTNDirectAdapter.parse_ctn_response ⟨some (pre ++ s :: post)⟩ =
            CTNDirectAdapter.parse_ctn_response ⟨some (pre ++ post)⟩) := by
  refine ⟨?_, ?_, ?_, ?_⟩
  · intro opCode data
    rw [LykoAggregatorAdapter.parse_search_response,
      List.length_filterMap_eq_countP]
    congr 1
    funext item
    simp [LykoAggregatorAdapter.parseItem]
  · intro opCode pre post item h
    have hnone : LykoAggregatorAdapter.parseItem opCode item = none := by
      simp [LykoAggregatorAdapter.parseItem, h]
    simp [LykoAggregatorAdapter.parse_search_response, List.filterMap_append,
      List.filterMap_cons, hnone]
  · intro data
    rw [CTNDirectAdapter.parse_ctn_response, List.length_filterMap_eq_countP]
    congr 1
    funext s
    simp [CTNDirectAdapter.parseSailing]
  · intro pre post s h
    have hnone : CTNDirectAdapter.parseSailing s = none := by
      simp [CTNDirectAdapter.parseSailing, h]
    simp [CTNDirectAdapter.parse_ctn_response, List.filterMap_append,
      List.filterMap_cons, hnone]

/-- Claim C4 witness: a Lyko response with three valid entries and one
malformed entry yields exactly the three results of the valid entries, not
zero; likewise one malformed CTN sailing is dropped alone. -/
theorem claimC4_witness :
    pyDecimalOfJVal (lykoItemBad.price.getD (JVal.num 0)) = none
    ∧ LykoAggregatorAdapter.parse_search_response "LYK"
        ⟨some ([lykoItemA, lykoItemB, lykoItemC] ++ lykoItemBad :: [])⟩ =
      LykoAggregatorAdapter.parse_search_response "LYK"
        ⟨some ([lykoItemA, lykoItemB, lykoItemC] ++ [])⟩
    ∧ (LykoAggregatorAdapter.parse_search_response "LYK"
        ⟨some [lykoItemA, lykoItemB, lykoItemC, lykoItemBad]⟩).length = 3
    ∧ pyDecimalOfJVal (ctnSailingBad.fare.getD (JVal.num 0)) = none
    ∧ CTNDirectAdapter.parse_ctn_response
        ⟨some ([ctnSailingA] ++ ctnSailingBad :: [])⟩ =
      CTNDirectAdapter.parse_ctn_response ⟨some ([ctnSailingA] ++ [])⟩ :=
  ⟨by decide,
   claimC4.2.1 "LYK" [lykoItemA, lykoItemB, lykoItemC] [] lykoItemBad
     (by decide),
   by decide, by decide,
   claimC4.2.2.2 [ctnSailingA] [] ctnSailingBad (by decide)⟩

/-- Claim C9 counterexample: a CTN sailing that omits `seats_available` and
`duration` is kept, but the normalized entry carries Python `None` in those
fields, not the claimed default 0 — the CTN mapper reads them with
`sailing.get(...)` without a default. -/
theorem claimC9_counterexample :
    (CTNDirectAdapter.parse_ctn_response ⟨some [ctnSailingC9]⟩).map
        (fun r => (r.available_seats, r.duration_minutes)) = [(none, none)]
    ∧ (none : Option Int) ≠ some 0 := by
  exact ⟨by decide, by decide⟩

/-- Claim C9 (amended): an entry that merely omits fields is never dropped —
an entry is skipped exactly when its price (fare) value fails the decimal
conversion. A missing price becomes `Decimal("0")` in both adapters and a
missing currency becomes "EUR" (Lyko) or "TND" (CTN); but only the Lyko
mapper defaults missing seats and duration to 0, while the CTN mapper leaves
them `None`. -/
theorem claimC9_amended :
    (∀ (opCode : String) (item : LykoItem), item.price = none →
        (LykoAggregatorAdapter.parseItem opCode item).map
          (fun r => r.base_price) = some 0)
    ∧ (∀ (opCode : String) (item : LykoItem) (r : SearchResponse),
        LykoAggregatorAdapter.parseItem opCode item = some r →
          (item.currency = none → r.currency = "EUR")
          ∧ (item.available_seats = none → r.available_seats = some 0)
          ∧ (item.duration_minutes = none → r.duration_minutes = some 0))
    ∧ (∀ (opCode : String) (item : LykoItem),
        LykoAggregatorAdapter.parseItem opCode item = none ↔
          pyDecimalOfJVal (item.price.getD (JVal.num 0)) = none)
    ∧ (∀ s : CtnSailing, s.fare = none →
        (CTNDirectAdapter.parseSailing s).map (fun r => r.base_price) = some 0)
    ∧ (∀ (s : CtnSailing) (r : SearchResponse),
        CTNDirectAdapter.parseSailing s = some r →
          (s.currency = none → r.currency = "TND")
          ∧ (s.seats_available = none → r.available_seats = none)
          ∧ (s.duration = none → r.duration_minutes = none))
    ∧ (∀ s : CtnSailing,
        CTNDirectAdapter.parseSailing s = none ↔
          pyDecimalOfJVal (s.fare.getD (JVal.num 0)) = none) := by
  refine ⟨?_, ?_, ?_, ?_, ?_, ?_⟩
  · intro opCode item h
    simp [LykoAggregatorAdapter.parseItem, h, pyDecimalOfJVal]
  · intro opCode item r h
    rcases hq : pyDecimalOfJVal (item.price.getD (JVal.num 0)) with _ | q
    · simp [LykoAggregatorAdapter.parseItem, hq] at h
    · simp [LykoAggregatorAdapter.parseItem, hq] at h
      refine ⟨fun hc => ?_, fun hs => ?_, fun hd => ?_⟩
      · simp [← h, hc]
      · simp [← h, hs]
      · simp [← h, hd]
  · intro opCode item
    simp [LykoAggregatorAdapter.parseItem]
  · intro s h
    simp [CTNDirectAdapter.parseSailing, h, pyDecimalOfJVal]
  · intro s r h
    rcases hq : pyDecimalOfJVal (s.fare.getD (JVal.num 0)) with _ | q
    · simp [CTNDirectAdapter.parseSailing, hq] at h
    · simp [CTNDirectAdapter.parseSailing, hq] at h
      refine ⟨fun hc => ?_, fun hs => ?_, fun hd => ?_⟩
      · simp [← h, hc]
      · simp [← h, hs]
      · simp [← h, hd]
  · intro s
    simp [CTNDirectAdapter.parseSailing]

/-- Claim C9 witness: a Lyko entry without a price key is kept with price 0;
the CTN sailing `ctnSailingC9` is kept with currency defaulted to "TND" while
its missing seat count stays `None`. -/
theorem claimC9_amended_witness :
    lykoItemC.price = none
    ∧ (LykoAggregatorAdapter.parseItem "LYK" lykoItemC).map
        (fun r => r.base_price) = some 0
    ∧ CTNDirectAdapter.parseSailing ctnSailingC9 = some resC9
    ∧ resC9.currency = "TND"
    ∧ resC9.available_seats = none :=
  ⟨rfl, claimC9_amended.1 "LYK" lykoItemC rfl, by decide,
   (claimC9_amended.2.2.2.2.1 ctnSailingC9 resC9 (by decide)).1 rfl,
   (claimC9_amended.2.2.2.2.1 ctnSailingC9 resC9 (by decide)).2.1 rfl⟩

/-- Claim C7 counterexample: an operator configured with
`api_timeout_seconds = 5` still has its search request bounded by the
hard-coded 30-second client timeout — the configured per-operator timeout is
not consulted by either adapter. -/
theorem claimC7_counterexample :
    LykoAggregatorAdapter.searchTimeoutSeconds opC7 = 30
    ∧ CTNDirectAdapter.searchTimeoutSeconds opC7 = 30
    ∧ opC7.api_timeout_seconds = 5
    ∧ LykoAggregatorAdapter.searchTimeoutSeconds opC7 ≠
        opC7.api_timeout_seconds := by
  exact ⟨rfl, rfl, rfl, by decide⟩

/-- Claim C7 (amended): every dispatched search call is bounded by the fixed
30-second timeout written into the adapters; the bound is identical for all
operators and independent of the configured `api_timeout_seconds`. -/
theorem claimC7_amended (op op' : FerryOperator) :
    LykoAggregatorAdapter.searchTimeoutSeconds op = 30
    ∧ CTNDirectAdapter.searchTimeoutSeconds op = 30
    ∧ LykoAggregatorAdapter.searchTimeoutSeconds op =
        LykoAggregatorAdapter.searchTimeoutSeconds op'
    ∧ CTNDirectAdapter.searchTimeoutSeconds op =
        CTNDirectAdapter.searchTimeoutSeconds op' :=
  ⟨rfl, rfl, rfl, rfl⟩

/-- Claim C5: with no registered adapters `search_all_operators` returns the
empty list at once, and when every registered adapter's search raises, the
call still returns the empty list normally — never a top-level error. -/
theorem claimC5 :
    (∀ request : SearchRequest, search_all_operators request [] = [])
    ∧ (∀ (request : SearchRequest)
        (adapters : List (String × AdapterBehavior)),
        (∀ p ∈ adapters,
          (p : String × AdapterBehavior).2.searchRun request = SearchRun.exn) →
          search_all_operators request adapters = []) := by
  constructor
  · intro request
    rfl
  · intro request adapters h
    have hg : gathered_results request adapters = [] := by
      rw [gathered_results, List.flatten_eq_nil_iff]
      intro l hl
      rcases List.mem_map.1 hl with ⟨p, hp, rfl⟩
      simp [safe_search, h p hp]
    rw [search_all_operators, hg]
    split
    · rfl
    · rfl

/-- Claim C5 witness: two registered adapters, both of whose searches raise,
produce the empty aggregate result. -/
theorem claimC5_witness :
    (∀ p ∈ [("AAA", behaviorExn), ("BBB", behaviorExn)],
      (p : String × AdapterBehavior).2.searchRun reqW = SearchRun.exn)
    ∧ search_all_operators reqW [("AAA", behaviorExn), ("BBB", behaviorExn)] =
        [] :=
  ⟨by decide, claimC5.2 reqW [("AAA", behaviorExn), ("BBB", behaviorExn)]
    (by decide)⟩

/-- Claim C10: the service-level `create_booking` returns the literal error
dict for an operator code absent from the adapter map, returns an error dict
with the exception message when the adapter's booking call raises, never
propagates an exception (the embedding is total), and leaves the adapter map
unchanged. -/
theorem claimC10 (s : ServiceState) (code : String)
    (data : List (String × String)) :
    (dictGet s.adapters code = none →
      create_booking s code data =
        (s, [("error", "Operator " ++ code ++ " not available")]))
    ∧ (∀ (a : AdapterBehavior) (msg : String),
        dictGet s.adapters code = some a →
          a.bookingRun data = BookingRun.exnMsg msg →
            create_booking s code data = (s, [("error", msg)]))
    ∧ (create_booking s code data).1 = s := by
  refine ⟨fun h => ?_, fun a msg ha hb => ?_, ?_⟩
  · simp [create_booking, h]
  · simp [create_booking, ha, hb]
  · cases hd : dictGet s.adapters code with
    | none => simp [create_booking, hd]
    | some a =>
      cases hb : a.bookingRun data with
      | ok d => simp [create_booking, hd, hb]
      | exnMsg m => simp [create_booking, hd, hb]

/-- Claim C10 witness: an unknown operator code gets the "not available"
error dict, and a registered adapter whose booking call raises with
"connection reset" gets that message as the error value; the adapter map is
unchanged in both cases. -/
theorem claimC10_witness :
    dictGet stateC10.adapters "GNV" = none
    ∧ create_booking stateC10 "GNV" [] =
        (stateC10, [("error", "Operator GNV not available")])
    ∧ create_booking stateC10 "CTN" [] =
        (stateC10, [("error", "connection reset")])
    ∧ (create_booking stateC10 "CTN" []).1 = stateC10 :=
  ⟨rfl, (claimC10 stateC10 "GNV" []).1 rfl,
   (claimC10 stateC10 "CTN" []).2.1 behaviorBookFail "connection reset" rfl
     rfl,
   (claimC10 stateC10 "CTN" []).2.2⟩

theorem dictGet_dictInsert_self {α : Type} (k : String) (v : α) :
    ∀ m : List (String × α), dictGet (dictInsert m k v) k = some v
  | [] => by simp [dictInsert, dictGet]
  | (k', v') :: rest => by
    by_cases h : k' = k
    · simp [dictInsert, dictGet, h]
    · simp [dictInsert, dictGet, h, dictGet_dictInsert_self k v rest]

theorem dictGet_dictInsert_ne {α : Type} (k k' : String) (v : α)
    (hne : k' ≠ k) :
    ∀ m : List (String × α), dictGet (dictInsert m k' v) k = dictGet m k
  | [] => by simp [dictInsert, dictGet, hne]
  | (k'', v'') :: rest => by
    by_cases h : k'' = k'
    · subst h
      simp [dictInsert, dictGet, hne]
    · simp [dictInsert, dictGet, h, dictGet_dictInsert_ne k k' v hne rest]

theorem initFold_get_of_notin (k : String) :
    ∀ (ops : List FerryOperator) (m : List (String × AdapterKind)),
      (∀ op ∈ ops, op.is_active = true → op.code ≠ k) →
        dictGet (ops.foldl initStep m) k = dictGet m k
  | [], _, _ => rfl
  | op :: rest, m, h => by
    rw [List.foldl_cons]
    have hrest : ∀ op' ∈ rest, op'.is_active = true → op'.code ≠ k :=
      fun op' hm => h op' (List.mem_cons_of_mem _ hm)
    rw [initFold_get_of_notin k rest _ hrest]
    cases ha : op.is_active with
    | false => simp [initStep, ha]
    | true =>
      simp [initStep, ha,
        dictGet_dictInsert_ne k op.code _ (h op (List.mem_cons_self _ _) ha)]

theorem initFold_get_active :
    ∀ (ops : List FerryOperator) (m : List (String × AdapterKind)),
      (ops.map (fun op => op.code)).Nodup →
        ∀ op ∈ ops, op.is_active = true →
          dictGet (ops.foldl initStep m) op.code = some (create_adapter op)
  | [], _, _, op, hm, _ => absurd hm (List.not_mem_nil op)
  | o :: rest, m, hnd, op, hm, hact => by
    rw [List.foldl_cons]
    rcases List.mem_cons.1 hm with rfl | hm'
    · have hno : op.code ∉ rest.map (fun o' => o'.code) :=
        (List.nodup_cons.1 hnd).1
      have hnotin : ∀ op' ∈ rest, op'.is_active = true → op'.code ≠ op.code :=
        fun op' hmem _ hc => hno (List.mem_map.2 ⟨op', hmem, hc⟩)
      rw [initFold_get_of_notin op.code rest _ hnotin]
      simp [initStep, hact, dictGet_dictInsert_self]
    · have hnd' : (rest.map (fun o' => o'.code)).Nodup :=
        (List.nodup_cons.1 hnd).2
      exact initFold_get_active rest _ hnd' op hm' hact

/-- Claim C8: registry initialization skips inactive operator configs
entirely (removing an inactive config from the input leaves the built adapter
map unchanged), and — when operator codes are unique, as the database schema
enforces — every active config ends up in the map under its code with the
adapter variant chosen by `_create_adapter` from its configuration.
Initialization is total, so one operator can never abort it; the per-operator
`except` guard is unreachable because the adapter constructors are total. -/
theorem claimC8 :
    (∀ (pre post : List FerryOperator) (op : FerryOperator),
        op.is_active = false →
          initService (pre ++ op :: post) = initService (pre ++ post))
    ∧ (∀ ops : List FerryOperator, (ops.map (fun op => op.code)).Nodup →
        ∀ op ∈ ops, op.is_active = true →
          dictGet (initService ops) op.code = some (create_adapter op)) := by
  constructor
  · intro pre post op h
    unfold initService
    rw [List.foldl_append, List.foldl_append, List.foldl_cons]
    congr 1
    simp [initStep, h]
  · intro ops hnd op hm hact
    exact initFold_get_active ops [] hnd op hm hact

/-- Claim C8 witness: of three configs — an active Lyko-routed operator, an
inactive one, an active CTN direct operator — the inactive one contributes
nothing to the registry and CTN gets the direct adapter variant. -/
theorem claimC8_witness :
    opInactive.is_active = false
    ∧ initService [opLyko, opInactive, opCtn] = initService [opLyko, opCtn]
    ∧ ([opLyko, opInactive, opCtn].map (fun op => op.code)).Nodup
    ∧ opCtn.is_active = true
    ∧ dictGet (initService [opLyko, opInactive, opCtn]) "CTN" =
        some AdapterKind.ctn :=
  ⟨rfl, claimC8.1 [opLyko] [opCtn] opInactive rfl, by decide, rfl,
   claimC8.2 [opLyko, opInactive, opCtn] (by decide) opCtn (by decide) rfl⟩

/-- Claim C2 counterexample: `search_all_operators` returns only the merged
result list, which carries no outcome map — two runs in which different
operators fail produce identical return values, so no reading of the
returned response can mark exactly the failing operator as "failed". -/
theorem claimC2_counterexample :
    search_all_operators reqW [("AAA", behaviorExn), ("BBB", behaviorOkB)] =
      search_all_operators reqW [("AAA", behaviorOkB), ("BBB", behaviorExn)]
    ∧ ¬ ∃ failedOf : List SearchResponse → String,
        failedOf (search_all_operators reqW
          [("AAA", behaviorExn), ("BBB", behaviorOkB)]) = "AAA"
        ∧ failedOf (search_all_operators reqW
          [("AAA", behaviorOkB), ("BBB", behaviorExn)]) = "BBB" := by
  have he : search_all_operators reqW
      [("AAA", behaviorExn), ("BBB", behaviorOkB)] =
    search_all_operators reqW
      [("AAA", behaviorOkB), ("BBB", behaviorExn)] := by decide
  refine ⟨he, ?_⟩
  rintro ⟨f, h1, h2⟩
  rw [he] at h1
  rw [h1] at h2
  exact absurd h2 (by decide)

/-- Claim C2 (amended): an adapter whose search raises contributes zero
results and affects no sibling: on every run whose surviving gathered
results all carry a departure-time string (the domain where the line-356
sort is defined — a price tie mixing a missing and a present departure time
makes the sort itself raise `TypeError`, in the run with and without the
failing adapter alike), the call returns normally and the aggregate equals
that of the same run with the raising adapter removed, so every other
adapter's results are all present. No outcome map exists in the return
value; the failure is only logged. -/
theorem claimC2_amended (request : SearchRequest)
    (pre post : List (String × AdapterBehavior)) (c : String)
    (b : AdapterBehavior) (hb : b.searchRun request = SearchRun.exn)
    (htimes : ∀ r ∈ gathered_results request (pre ++ post),
      r.departure_time.isSome = true) :
    search_all_operators request (pre ++ (c, b) :: post) =
      search_all_operators request (pre ++ post) := by
  have hg : gathered_results request (pre ++ (c, b) :: post) =
      gathered_results request (pre ++ post) := by
    unfold gathered_results
    rw [List.map_append, List.map_append, List.map_cons,
      List.flatten_append, List.flatten_append, List.flatten_cons]
    simp [safe_search, hb]
  by_cases hpp : pre ++ post = []
  · have hg0 : gathered_results request (pre ++ (c, b) :: post) = [] := by
      rw [hg, hpp]
      rfl
    rw [search_all_operators, search_all_operators, hg0, hpp]
    simp [pySortResults, List.insertionSort]
  · have hne1 : (pre ++ (c, b) :: post).isEmpty = false := by
      simp [List.isEmpty_iff]
    have hne2 : (pre ++ post).isEmpty = false := by
      simp [List.isEmpty_iff, hpp]
    rw [search_all_operators, search_all_operators, hne1, hne2, hg]

/-- Claim C2 amended witness: removing a raising adapter from a two-adapter
run whose surviving result carries a departure time leaves the aggregate of
the surviving adapter unchanged. -/
theorem claimC2_amended_witness :
    behaviorExn.searchRun reqW = SearchRun.exn
    ∧ (∀ r ∈ gathered_results reqW [("AAA", behaviorOkB)],
        r.departure_time.isSome = true)
    ∧ search_all_operators reqW [("AAA", behaviorOkB), ("CCC", behaviorExn)] =
        search_all_operators reqW [("AAA", behaviorOkB)] :=
  ⟨rfl, by decide,
   claimC2_amended reqW [("AAA", behaviorOkB)] [] "CCC" behaviorExn rfl
     (by decide)⟩

/-- Claim C6 counterexample: `search_all_operators` never consults any
health information — an adapter whose `health_check` reports `false` is still
dispatched and its results are merged into the aggregate as usual. -/
theorem claimC6_counterexample :
    health_check_all [("CTN", behaviorUnhealthy)] = [("CTN", false)]
    ∧ search_all_operators reqW [("CTN", behaviorUnhealthy)] = [resCtn6]
    ∧ [resCtn6] ≠ ([] : List SearchResponse) :=
  ⟨rfl, by decide, by decide⟩

/-- Claim C6 (amended): the search fan-out dispatches to every registered
adapter and reads no health state: replacing every adapter's health behaviour
arbitrarily leaves the aggregate search result unchanged. The health map of
`health_check_all` exists but is computed only when that method is called. -/
theorem claimC6_amended (request : SearchRequest)
    (adapters : List (String × AdapterBehavior))
    (f : String → AdapterBehavior → HealthRun) :
    search_all_operators request
        (adapters.map (fun p =>
          (p.1, { searchRun := p.2.searchRun, healthRun := f p.1 p.2,
                  bookingRun := p.2.bookingRun }))) =
      search_all_operators request adapters := by
  cases adapters with
  | nil => rfl
  | cons p rest =>
    simp only [search_all_operators, gathered_results, List.map_cons,
      List.isEmpty_cons, List.map_map]
    rfl

/-- Claim C1 counterexample: two results that tie on price and departure
time but come from different adapters keep adapter registration (dict) order
in the merged list; operator code is not a tie-break. With registration
order `ZZ` before `AA`, the `ZZ` result precedes the `AA` result although
`"ZZ" <= "AA"` is false, so the claimed (price, departure, operator-code)
ordering of the output fails. -/
theorem claimC1_counterexample :
    search_all_operators reqW [("ZZ", behaviorZZ), ("AA", behaviorAA)] =
      [resZZ, resAA]
    ∧ sortKey resZZ = sortKey resAA
    ∧ resZZ.operator_code = "ZZ"
    ∧ resAA.operator_code = "AA"
    ∧ strLEb resZZ.operator_code resAA.operator_code = false
    ∧ ¬ (search_all_operators reqW
          [("ZZ", behaviorZZ), ("AA", behaviorAA)]).Pairwise
        (fun x y => sortKey x ≠ sortKey y ∨
          strLEb x.operator_code y.operator_code = true) := by
  refine ⟨by decide, by decide, rfl, rfl, by decide, ?_⟩
  intro h
  have he : search_all_operators reqW [("ZZ", behaviorZZ), ("AA", behaviorAA)]
      = [resZZ, resAA] := by decide
  rw [he] at h
  rcases List.pairwise_cons.1 h with ⟨hz, _⟩
  rcases hz resAA (List.mem_cons_self _ _) with hk | hc
  · exact hk (by decide)
  · exact absurd hc (by decide)

/-- Claim C1 (amended): on every run whose gathered results all carry a
departure-time string (the spec's data-model invariant; mixing a missing
timestamp with a present one under a price tie would raise `TypeError` in
the source), the merged list is sorted non-decreasing by
(base_price, departure_time), it is a permutation of the concatenated
per-adapter lists, and the sort is stable: results tied on the whole sort
key keep concatenation order — per-adapter return order within one adapter
and adapter registration order across adapters, irrespective of operator
code. -/
theorem claimC1_amended (request : SearchRequest)
    (adapters : List (String × AdapterBehavior))
    (htimes : ∀ r ∈ gathered_results request adapters,
      r.departure_time.isSome = true) :
    (search_all_operators request adapters).Pairwise (fun x y =>
        x.base_price < y.base_price ∨
          (x.base_price = y.base_price ∧ ∀ s t, x.departure_time = some s →
            y.departure_time = some t → strLEb s t = true))
    ∧ (search_all_operators request adapters).Perm
        (gathered_results request adapters)
    ∧ ∀ k : ℚ × Option String,
        (search_all_operators request adapters).filter
            (fun x => decide (sortKey x = k)) =
          (gathered_results request adapters).filter
            (fun x => decide (sortKey x = k)) := by
  by_cases he : adapters.isEmpty = true
  · have ha : adapters = [] := List.isEmpty_iff.1 he
    subst ha
    exact ⟨List.Pairwise.nil, List.Perm.refl _, fun k => rfl⟩
  · have hs : search_all_operators request adapters =
        pySortResults (gathered_results request adapters) := by
      rw [search_all_operators, if_neg he]
    refine ⟨?_, ?_, ?_⟩
    · rw [hs]
      refine (pySortResults_sorted
        (gathered_results request adapters)).imp_of_mem ?_
      intro a b _ _ hab
      rcases lt_trichotomy a.base_price b.base_price with h | h | h
      · exact Or.inl h
      · refine Or.inr ⟨h, fun s t hsa htb => ?_⟩
        unfold keyLEb at hab
        rw [if_neg (by rw [h]; exact lt_irrefl _),
          if_neg (by rw [h]; exact lt_irrefl _), hsa, htb] at hab
        exact hab
      · exfalso
        unfold keyLEb at hab
        rw [if_neg (asymm h), if_pos h] at hab
        exact Bool.false_ne_true hab
    · rw [hs]
      exact pySortResults_perm _
    · intro k
      rw [hs]
      exact pySortResults_filter_key k _
/-- Claim C1 amended witness: a concrete two-adapter run with all departure
times present, instantiating the amended sorting theorem. -/
theorem claimC1_amended_witness :
    (∀ r ∈ gathered_results reqW [("ZZ", behaviorZZ), ("AA", behaviorAA)],
      r.departure_time.isSome = true)
    ∧ (search_all_operators reqW [("ZZ", behaviorZZ), ("AA", behaviorAA)]).Perm
        (gathered_results reqW [("ZZ", behaviorZZ), ("AA", behaviorAA)]) :=
  ⟨by decide,
   (claimC1_amended reqW [("ZZ", behaviorZZ), ("AA", behaviorAA)]
     (by decide)).2.1⟩
